import Mathlib

/-!
Verification of the decision and aggregation logic of the
inbound-carrier-sales-automation repository.

The carrier-risk evaluator exists twice in the dashboard sources:
`evaluateCarrierWarnings` in `dashboard/src/views/RecentCallsView.tsx`
and `evaluateCarrierWarnings` in the `App` component of
`dashboard/src/App.tsx`.  Both are embedded below over the string-typed
`CarrierDetails` record that the dashboard receives from the
`/carrier/validate` endpoint.

Embedding notes:
* JavaScript `parseInt(s) || 0` is modelled by `parseIntOr0`
  (leading whitespace skipped, optional sign, longest run of leading
  decimal digits, `NaN`/`0` collapsing to `0`).  The hexadecimal
  auto-radix of `parseInt` (strings starting `0x`) is not modelled; no
  numeric field of a carrier record uses that form.
* Warning `title` strings are embedded without their leading emoji
  characters.  The emoji are pure presentation and are byte-corrupted
  in one of the two source copies; the English titles are identical in
  both copies.  The `message` strings are presentation-only prose
  (including locale-formatted numbers) and are not part of any claim,
  so warnings are embedded as (severity, title) pairs.
-/

namespace CarrierSales

/-- Severity of a dashboard warning: the `level` field of
`CarrierWarning` in the source (`high` / `medium` / `low`). -/
inductive Level where
  | high
  | medium
  | low
deriving DecidableEq, Repr

/-- One risk finding, as produced by the dashboard evaluators
(`CarrierWarning` in the source, with the presentation-only `message`
field omitted, see the header note). -/
structure Warning where
  level : Level
  title : String
deriving DecidableEq, Repr

/-- The string-typed carrier record received from `/carrier/validate`
(`CarrierDetails` in both dashboard source copies). -/
structure CarrierDetails where
  mc_number : String
  is_valid : String
  status : String
  carrier_name : String
  allowed_to_operate : String
  out_of_service : String
  complaint_count : String
  percentile : String
  total_violations : String
  address : String
  city : String
  state : String
  zip_code : String
  phone : String
  insurance_on_file : String
  insurance_required : String
  carrier_operation : String
  reason : String
deriving Repr

/-- Value of a decimal digit character. -/
def digitVal (c : Char) : Nat := c.toNat - 48

/-- Longest run of leading decimal digits, `none` when there is none
(JavaScript `parseInt` returning `NaN`). -/
def parseDigits (cs : List Char) : Option Int :=
  let ds := cs.takeWhile Char.isDigit
  if ds.isEmpty then none
  else some (Int.ofNat (ds.foldl (fun a c => a * 10 + digitVal c) 0))

/-- Model of JavaScript `parseInt(s)` on decimal input: skip leading
whitespace, read an optional sign and then the longest run of leading
decimal digits (anything after that run is ignored); `none` models
`NaN`. -/
def jsParseInt (s : String) : Option Int :=
  match s.data.dropWhile Char.isWhitespace with
  | '-' :: rest => (parseDigits rest).map (fun n => -n)
  | '+' :: rest => parseDigits rest
  | cs => parseDigits cs

/-- Model of the source condition `!s || s.trim() === ''`: the string
is empty (falsy) or consists of whitespace only. -/
def jsBlank (s : String) : Bool :=
  s.data.all Char.isWhitespace

/-- Model of the source idiom `parseInt(s) || 0`: an unparseable string
(`NaN`) falls back to `0`. -/
def parseIntOr0 (s : String) : Int :=
  (jsParseInt s).getD 0

/-- Warning pushed when `allowed_to_operate !== 'Y'`. -/
def notAuthorizedW : Warning := ⟨Level.high, "Not Authorized to Operate"⟩

/-- Warning pushed when `out_of_service === 'Y'`. -/
def outOfServiceW : Warning := ⟨Level.high, "Out of Service"⟩

/-- Warning pushed when insurance on file is below the requirement. -/
def insufficientInsuranceW : Warning := ⟨Level.high, "Insufficient Insurance"⟩

/-- Warning pushed when no insurance is on file but some is required. -/
def noInsuranceOnFileW : Warning := ⟨Level.high, "No Insurance on File"⟩

/-- Warning pushed when the complaint count is at least 5. -/
def highComplaintsW : Warning := ⟨Level.high, "High Complaint Count"⟩

/-- Warning pushed when the complaint count is 3 or 4. -/
def multipleComplaintsW : Warning := ⟨Level.medium, "Multiple Complaints"⟩

/-- Warning pushed when the violation total is at least 10. -/
def highViolationsW : Warning := ⟨Level.high, "High Violation Count"⟩

/-- Warning pushed when the violation total is between 5 and 9. -/
def multipleViolationsW : Warning := ⟨Level.medium, "Multiple Violations"⟩

/-- Warning pushed when the safety percentile parses and is ≥ 75. -/
def poorPercentileW : Warning := ⟨Level.medium, "Poor Safety Percentile"⟩

/-- Warning pushed when the phone field is empty or blank. -/
def missingPhoneW : Warning := ⟨Level.low, "Missing Phone Number"⟩

/-- `evaluateCarrierWarnings` from `RecentCallsView.tsx` (the copy with
the trailing missing-phone rule).  Each `if` mirrors one `warnings.push`
site of the source, in source order. -/
def evaluateCarrierWarnings (c : CarrierDetails) : List Warning :=
  let onFile := parseIntOr0 c.insurance_on_file
  let required := parseIntOr0 c.insurance_required
  let complaints := parseIntOr0 c.complaint_count
  let violations := parseIntOr0 c.total_violations
  (if c.allowed_to_operate ≠ "Y" then [notAuthorizedW] else []) ++
  (if c.out_of_service = "Y" then [outOfServiceW] else []) ++
  (if required > 0 ∧ onFile < required then [insufficientInsuranceW] else []) ++
  (if onFile = 0 ∧ required > 0 then [noInsuranceOnFileW] else []) ++
  (if complaints ≥ 5 then [highComplaintsW]
   else if complaints ≥ 3 then [multipleComplaintsW] else []) ++
  (if violations ≥ 10 then [highViolationsW]
   else if violations ≥ 5 then [multipleViolationsW] else []) ++
  (if c.percentile ≠ "" ∧ c.percentile ≠ "N/A" then
     match jsParseInt c.percentile with
     | some p => if p ≥ 75 then [poorPercentileW] else []
     | none => []
   else []) ++
  (if jsBlank c.phone then [missingPhoneW] else [])

/-- `evaluateCarrierWarnings` from the `App` component in `App.tsx`:
textually the same rule chain as the `RecentCallsView` copy but ending
after the percentile rule — it has no missing-phone rule. -/
def evaluateCarrierWarningsApp (c : CarrierDetails) : List Warning :=
  let onFile := parseIntOr0 c.insurance_on_file
  let required := parseIntOr0 c.insurance_required
  let complaints := parseIntOr0 c.complaint_count
  let violations := parseIntOr0 c.total_violations
  (if c.allowed_to_operate ≠ "Y" then [notAuthorizedW] else []) ++
  (if c.out_of_service = "Y" then [outOfServiceW] else []) ++
  (if required > 0 ∧ onFile < required then [insufficientInsuranceW] else []) ++
  (if onFile = 0 ∧ required > 0 then [noInsuranceOnFileW] else []) ++
  (if complaints ≥ 5 then [highComplaintsW]
   else if complaints ≥ 3 then [multipleComplaintsW] else []) ++
  (if violations ≥ 10 then [highViolationsW]
   else if violations ≥ 5 then [multipleViolationsW] else []) ++
  (if c.percentile ≠ "" ∧ c.percentile ≠ "N/A" then
     match jsParseInt c.percentile with
     | some p => if p ≥ 75 then [poorPercentileW] else []
     | none => []
   else [])

example : parseIntOr0 "-3" = -3 := by decide
example : parseIntOr0 "abc" = 0 := by decide
example : parseIntOr0 "12x" = 12 := by decide
example : parseIntOr0 " 40000 " = 40000 := by decide
example : jsParseInt "N/A" = none := by decide

/-- The optional safety percentile of the data model, read off the
string-typed record: `none` (carrier not rated) when the field is empty
(falsy), the literal `N/A`, or unparseable. -/
def specPercentile (c : CarrierDetails) : Option Int :=
  if c.percentile = "" ∨ c.percentile = "N/A" then none
  else jsParseInt c.percentile

/-- The rule table of the specification (§4.1), written as the ordered
concatenation of the eight rules, each contributing its warning exactly
when its stated condition holds, with its stated severity:
not_authorized (high), out_of_service (high), insufficient_insurance
(high), no_insurance_on_file (high), high_complaints (high) else
multiple_complaints (medium), high_violations (high) else
multiple_violations (medium), poor_percentile (medium), missing_phone
(low). -/
def specRuleWarnings (c : CarrierDetails) : List Warning :=
  let onFile := parseIntOr0 c.insurance_on_file
  let required := parseIntOr0 c.insurance_required
  let complaints := parseIntOr0 c.complaint_count
  let violations := parseIntOr0 c.total_violations
  (if c.allowed_to_operate = "N" then [notAuthorizedW] else []) ++
  (if c.out_of_service = "Y" then [outOfServiceW] else []) ++
  (if required > 0 ∧ onFile < required then [insufficientInsuranceW] else []) ++
  (if required > 0 ∧ onFile = 0 then [noInsuranceOnFileW] else []) ++
  (if 5 ≤ complaints then [highComplaintsW] else []) ++
  (if 3 ≤ complaints ∧ complaints < 5 then [multipleComplaintsW] else []) ++
  (if 10 ≤ violations then [highViolationsW] else []) ++
  (if 5 ≤ violations ∧ violations < 10 then [multipleViolationsW] else []) ++
  (match specPercentile c with
   | some p => if 75 ≤ p then [poorPercentileW] else []
   | none => []) ++
  (if c.phone = "" then [missingPhoneW] else [])

/-- A profile that is well formed in the sense of the data model (§3):
Y/N authority flags, non-negative insurance amounts and counts, a
percentile inside [0,100] when the carrier is rated, and a phone field
that is not a nonempty all-whitespace string (absence is encoded by the
empty string). -/
def WellFormed (c : CarrierDetails) : Prop :=
  (c.allowed_to_operate = "Y" ∨ c.allowed_to_operate = "N") ∧
  (c.out_of_service = "Y" ∨ c.out_of_service = "N") ∧
  0 ≤ parseIntOr0 c.insurance_on_file ∧
  0 ≤ parseIntOr0 c.insurance_required ∧
  0 ≤ parseIntOr0 c.complaint_count ∧
  0 ≤ parseIntOr0 c.total_violations ∧
  (∀ p, specPercentile c = some p → 0 ≤ p ∧ p ≤ 100) ∧
  (jsBlank c.phone = true → c.phone = "")

/-- The source's `if n >= hi … else if n >= lo …` threshold chain is the
two mutually exclusive rules of the rule table. -/
theorem threshold_chain_split (n lo hi : Int) (w v : Warning) :
    (if hi ≤ n then [w] else if lo ≤ n then [v] else []) =
      (if hi ≤ n then [w] else []) ++ (if lo ≤ n ∧ n < hi then [v] else []) := by
  split_ifs <;> simp_all
  omega

theorem percentile_segment (c : CarrierDetails) :
    (if c.percentile ≠ "" ∧ c.percentile ≠ "N/A" then
       match jsParseInt c.percentile with
       | some p => if p ≥ 75 then [poorPercentileW] else []
       | none => ([] : List Warning)
     else []) =
      (match specPercentile c with
       | some p => if 75 ≤ p then [poorPercentileW] else []
       | none => []) := by
  by_cases h1 : c.percentile = ""
  · simp [specPercentile, h1]
  by_cases h2 : c.percentile = "N/A"
  · simp [specPercentile, h1, h2]
  · simp [specPercentile, h1, h2]

/-- C1: on every well-formed profile the evaluator of
`RecentCallsView.tsx` returns exactly the warnings whose rule
conditions hold, in the fixed §4.1 emission order with the stated
severities (`specRuleWarnings` is that ordered rule table by
construction, so a profile triggering no rule gets `[]`). -/
theorem carrier_risk_rule_table (c : CarrierDetails) (h : WellFormed c) :
    evaluateCarrierWarnings c = specRuleWarnings c := by
  obtain ⟨ha, ho, hof, hreq, hc, hv, hp, hph⟩ := h
  have e1 : (if c.allowed_to_operate ≠ "Y" then [notAuthorizedW] else []) =
      (if c.allowed_to_operate = "N" then [notAuthorizedW] else []) := by
    rcases ha with ha | ha <;> simp [ha]
  have e4 : (if parseIntOr0 c.insurance_on_file = 0 ∧ 0 < parseIntOr0 c.insurance_required
        then [noInsuranceOnFileW] else []) =
      (if 0 < parseIntOr0 c.insurance_required ∧ parseIntOr0 c.insurance_on_file = 0
        then [noInsuranceOnFileW] else []) := by
    by_cases h4 : parseIntOr0 c.insurance_on_file = 0 ∧ 0 < parseIntOr0 c.insurance_required
    · rw [if_pos h4, if_pos ⟨h4.2, h4.1⟩]
    · rw [if_neg h4, if_neg (fun hh => h4 ⟨hh.2, hh.1⟩)]
  have e8 : (if jsBlank c.phone then [missingPhoneW] else []) =
      (if c.phone = "" then [missingPhoneW] else []) := by
    by_cases hb : jsBlank c.phone
    · rw [if_pos hb, if_pos (hph hb)]
    · rw [if_neg hb, if_neg (fun he : c.phone = "" => hb (by rw [he]; rfl))]
  simp only [evaluateCarrierWarnings, specRuleWarnings, gt_iff_lt, ge_iff_le]
  rw [e1, e4, e8, percentile_segment,
    threshold_chain_split (parseIntOr0 c.complaint_count) 3 5
      highComplaintsW multipleComplaintsW,
    threshold_chain_split (parseIntOr0 c.total_violations) 5 10
      highViolationsW multipleViolationsW]
  simp only [List.append_assoc]

/-- Concrete witness for `carrier_risk_rule_table`: a fully compliant
well-formed profile, on which both sides are the empty warning list. -/
def cleanCarrier : CarrierDetails where
  mc_number := "123456"
  is_valid := "true"
  status := "active"
  carrier_name := "Smith Trucking"
  allowed_to_operate := "Y"
  out_of_service := "N"
  complaint_count := "0"
  percentile := "N/A"
  total_violations := "0"
  address := "1 Main St"
  city := "Dallas"
  state := "TX"
  zip_code := "75201"
  phone := "555-0100"
  insurance_on_file := "1000000"
  insurance_required := "750000"
  carrier_operation := "Interstate"
  reason := "ok"

theorem carrier_risk_rule_table_witness :
    WellFormed cleanCarrier ∧
      evaluateCarrierWarnings cleanCarrier = specRuleWarnings cleanCarrier := by
  have hwf : WellFormed cleanCarrier := by
    refine ⟨Or.inl rfl, Or.inr rfl, by decide, by decide, by decide, by decide,
      ?_, by decide⟩
    intro p hp
    rw [show specPercentile cleanCarrier = none from by decide] at hp
    cases hp
  exact ⟨hwf, carrier_risk_rule_table cleanCarrier hwf⟩

/-- Occurrence count of a warning in a one-rule segment. -/
theorem count_if_singleton (x w : Warning) (p : Prop) [Decidable p] :
    (if p then [w] else []).count x = if p ∧ w = x then 1 else 0 := by
  split_ifs <;> simp_all [List.count_singleton']

/-- Occurrence count of a warning in a two-threshold chained segment. -/
theorem count_if_chain (x w v : Warning) (p q : Prop) [Decidable p] [Decidable q] :
    (if p then [w] else if q then [v] else []).count x =
      if p ∧ w = x then 1 else if ¬p ∧ q ∧ v = x then 1 else 0 := by
  split_ifs <;> simp_all [List.count_singleton']

/-- The percentile rule segment never contributes a warning other than
`poorPercentileW`. -/
theorem percentile_segment_count_eq_zero (c : CarrierDetails) (x : Warning)
    (hx : x ≠ poorPercentileW) :
    (if c.percentile ≠ "" ∧ c.percentile ≠ "N/A" then
       match jsParseInt c.percentile with
       | some p => if p ≥ 75 then [poorPercentileW] else []
       | none => ([] : List Warning)
     else []).count x = 0 := by
  split_ifs with h
  · cases jsParseInt c.percentile with
    | none => rfl
    | some p =>
      by_cases hp : p ≥ 75
      · simp [hp, List.count_singleton', Ne.symm hx]
      · simp [hp]
  · rfl

/-- C2: on every carrier record, the complaint rules are mutually
exclusive and threshold-monotone — exactly one high `High Complaint
Count` warning when the parsed complaint count is ≥ 5, exactly one
medium `Multiple Complaints` warning when it is 3 or 4, neither below
3, and never both; in particular the count 2→3 step introduces the
medium warning and the 4→5 step replaces it with the high one. -/
theorem complaint_warning_thresholds (c : CarrierDetails) :
    ((evaluateCarrierWarnings c).count highComplaintsW =
      if 5 ≤ parseIntOr0 c.complaint_count then 1 else 0) ∧
    ((evaluateCarrierWarnings c).count multipleComplaintsW =
      if 3 ≤ parseIntOr0 c.complaint_count ∧ parseIntOr0 c.complaint_count < 5
        then 1 else 0) := by
  have d1 : notAuthorizedW ≠ highComplaintsW := by decide
  have d2 : outOfServiceW ≠ highComplaintsW := by decide
  have d3 : insufficientInsuranceW ≠ highComplaintsW := by decide
  have d4 : noInsuranceOnFileW ≠ highComplaintsW := by decide
  have d5 : highViolationsW ≠ highComplaintsW := by decide
  have d6 : multipleViolationsW ≠ highComplaintsW := by decide
  have d7 : missingPhoneW ≠ highComplaintsW := by decide
  have e1 : notAuthorizedW ≠ multipleComplaintsW := by decide
  have e2 : outOfServiceW ≠ multipleComplaintsW := by decide
  have e3 : insufficientInsuranceW ≠ multipleComplaintsW := by decide
  have e4 : noInsuranceOnFileW ≠ multipleComplaintsW := by decide
  have e5 : highViolationsW ≠ multipleComplaintsW := by decide
  have e6 : multipleViolationsW ≠ multipleComplaintsW := by decide
  have e7 : missingPhoneW ≠ multipleComplaintsW := by decide
  have hfix : multipleComplaintsW ≠ highComplaintsW := by decide
  have hfix2 : highComplaintsW ≠ multipleComplaintsW := by decide
  constructor
  · simp only [evaluateCarrierWarnings, List.count_append, count_if_singleton,
      count_if_chain, ge_iff_le,
      percentile_segment_count_eq_zero c highComplaintsW (by decide),
      d1, d2, d3, d4, d5, d6, d7, hfix, and_false, and_true, if_false,
      false_and, add_zero, zero_add, if_neg (fun h : False => h)]
  · simp only [evaluateCarrierWarnings, List.count_append, count_if_singleton,
      count_if_chain, ge_iff_le,
      percentile_segment_count_eq_zero c multipleComplaintsW (by decide),
      e1, e2, e3, e4, e5, e6, e7, hfix2, and_false, and_true, if_false,
      false_and, add_zero, zero_add, if_neg (fun h : False => h)]
    split_ifs <;> omega

/-- A malformed profile: every field of `cleanCarrier` but with a
negative complaint count, which §7 of the specification calls
out-of-range input. -/
def negComplaintsCarrier : CarrierDetails :=
  { cleanCarrier with complaint_count := "-3" }

/-- C3 counterexample: on the out-of-range input `complaint_count =
"-3"` the in-repo evaluator performs no validation at all — the full
rule evaluation runs, the negative count is silently handled exactly
like `0`, and a normal (here empty) warning list is returned, instead
of a ValidationError being raised before any rule evaluation. -/
theorem no_validation_error_on_negative_complaints :
    parseIntOr0 negComplaintsCarrier.complaint_count = -3 ∧
    evaluateCarrierWarnings negComplaintsCarrier =
      evaluateCarrierWarnings { negComplaintsCarrier with complaint_count := "0" } ∧
    evaluateCarrierWarnings negComplaintsCarrier = [] := by decide

/-- C3 amended: the in-repo risk evaluator accepts malformed input
without failing; a profile whose complaint count parses negative is
processed by the complete rule chain and yields exactly the warnings of
the same profile with complaint count `0` (silent normalization, no
error channel). -/
theorem negative_complaints_silently_zero (c : CarrierDetails)
    (h : parseIntOr0 c.complaint_count < 0) :
    evaluateCarrierWarnings c =
      evaluateCarrierWarnings { c with complaint_count := "0" } := by
  have h5 : ¬(5 ≤ parseIntOr0 c.complaint_count) := by omega
  have h3 : ¬(3 ≤ parseIntOr0 c.complaint_count) := by omega
  simp [evaluateCarrierWarnings, h5, h3,
    show parseIntOr0 "0" = 0 from by decide]

theorem negative_complaints_silently_zero_witness :
    parseIntOr0 negComplaintsCarrier.complaint_count < 0 ∧
      evaluateCarrierWarnings negComplaintsCarrier =
        evaluateCarrierWarnings { negComplaintsCarrier with complaint_count := "0" } :=
  ⟨by decide, negative_complaints_silently_zero negComplaintsCarrier (by decide)⟩

/-- A profile whose phone field is empty, on which the two evaluator
copies disagree. -/
def noPhoneCarrier : CarrierDetails :=
  { cleanCarrier with phone := "" }

/-- C4 counterexample: the two `evaluateCarrierWarnings` copies are not
extensionally equal — on a carrier with an empty phone field the
`RecentCallsView` copy emits the low-severity missing-phone warning
that the `App` copy lacks. -/
theorem evaluator_copies_differ :
    evaluateCarrierWarnings noPhoneCarrier ≠
      evaluateCarrierWarningsApp noPhoneCarrier := by decide

/-- C4 amended: the two evaluator copies agree except for the final
missing-phone rule, which only the `RecentCallsView` copy has: its
result is always the `App` copy's result followed by the low-severity
missing-phone warning exactly when the phone field is blank.  In
particular the copies return identical lists on every carrier with a
non-blank phone field. -/
theorem evaluator_copies_agree_up_to_missing_phone (c : CarrierDetails) :
    evaluateCarrierWarnings c =
      evaluateCarrierWarningsApp c ++
        (if jsBlank c.phone then [missingPhoneW] else []) := by
  simp only [evaluateCarrierWarnings, evaluateCarrierWarningsApp,
    List.append_assoc]

/-- Outcome of one negotiation evaluation (§3 of the specification). -/
inductive NegotiationOutcome where
  | accept
  | counter
  | reject
deriving DecidableEq, Repr

/-- Result of one negotiation evaluation: the outcome together with the
counter rate, present only on a counter (§3). -/
structure Decision where
  outcome : NegotiationOutcome
  counter_rate : Option ℚ
deriving DecidableEq, Repr

/-- Modelled from the spec: the rate-negotiation engine
(`api/evaluate_negotiation/service.py` in the repository layout) is not
among the provided source files, so the §4.2 algorithm is taken
verbatim from the specification.  With
`delta = (carrier_offer - reference_rate) / reference_rate`: accept
when the offer is at or below the reference or `delta ≤ 0.10`; counter
when `0.10 < delta ≤ 0.20` and the round number is at most 3, at the
midpoint clamped to at most `reference_rate × 1.10`; reject otherwise.
Currency amounts are rationals. -/
def evaluateNegotiation (reference_rate carrier_offer : ℚ)
    (round_number : ℕ) : Decision :=
  if carrier_offer ≤ reference_rate then ⟨NegotiationOutcome.accept, none⟩
  else
    let delta := (carrier_offer - reference_rate) / reference_rate
    if delta ≤ 1/10 then ⟨NegotiationOutcome.accept, none⟩
    else if delta ≤ 1/5 ∧ round_number ≤ 3 then
      ⟨NegotiationOutcome.counter,
        some (min ((reference_rate + carrier_offer) / 2)
          (reference_rate * (11/10)))⟩
    else ⟨NegotiationOutcome.reject, none⟩

example : (evaluateNegotiation 1000 1100 1).outcome = NegotiationOutcome.accept := by
  norm_num [evaluateNegotiation]
example : (evaluateNegotiation 1000 1200 1).counter_rate = some 1100 := by
  norm_num [evaluateNegotiation, min_self]
example : (evaluateNegotiation 1000 1201 1).outcome = NegotiationOutcome.reject := by
  norm_num [evaluateNegotiation]

/-- C5: for every valid round (positive rates, round number ≥ 1) an
offer at or below the reference rate, or with deviation
`delta ≤ 0.10`, is accepted regardless of the round number; in
particular 1100 against reference 1000 is accepted while 1100.01 is
not accepted on any round. -/
theorem negotiation_accept_band :
    (∀ (r o : ℚ) (n : ℕ), 0 < r → 0 < o → 1 ≤ n →
        (o ≤ r ∨ (o - r) / r ≤ 1/10) →
        (evaluateNegotiation r o n).outcome = NegotiationOutcome.accept) ∧
    (evaluateNegotiation 1000 1100 1).outcome = NegotiationOutcome.accept ∧
    (∀ n : ℕ, 1 ≤ n →
      (evaluateNegotiation 1000 (110001/100) n).outcome ≠
        NegotiationOutcome.accept) := by
  refine ⟨?_, by norm_num [evaluateNegotiation], ?_⟩
  · intro r o n _ _ _ h
    simp only [evaluateNegotiation]
    split_ifs with h1 h2 h3
    · rfl
    · rfl
    · exact absurd (h.resolve_left h1) h2
    · exact absurd (h.resolve_left h1) h2
  · intro n _
    have h1 : ¬((110001/100 : ℚ) ≤ 1000) := by norm_num
    have h2 : ¬(((110001/100 : ℚ) - 1000) / 1000 ≤ 1/10) := by norm_num
    simp only [evaluateNegotiation, h1, h2, if_false, false_and]
    split_ifs <;> simp

theorem negotiation_accept_band_witness :
    (evaluateNegotiation 1000 950 2).outcome = NegotiationOutcome.accept :=
  negotiation_accept_band.1 1000 950 2 (by norm_num) (by norm_num)
    (by norm_num) (Or.inl (by norm_num))

/-- C6: for every valid round with `0.10 < delta ≤ 0.20` and round
number at most 3 the policy counters at the midpoint between reference
and offer clamped to `reference × 1.10`; in particular reference 1000,
offer 1200, round 1 counters with a rate between 1000 and 1100. -/
theorem negotiation_counter_band :
    (∀ (r o : ℚ) (n : ℕ), 0 < r → 0 < o → 1 ≤ n →
        1/10 < (o - r) / r → (o - r) / r ≤ 1/5 → n ≤ 3 →
        evaluateNegotiation r o n =
          ⟨NegotiationOutcome.counter,
            some (min ((r + o) / 2) (r * (11/10)))⟩) ∧
    ((evaluateNegotiation 1000 1200 1).outcome = NegotiationOutcome.counter ∧
      ∃ cr, (evaluateNegotiation 1000 1200 1).counter_rate = some cr ∧
        (1000 : ℚ) ≤ cr ∧ cr ≤ 1100) := by
  constructor
  · intro r o n hr _ _ hlt hle hn3
    have h1 : ¬(o ≤ r) := by
      intro hor
      have hd : (o - r) / r ≤ 0 :=
        div_nonpos_iff.mpr (Or.inr ⟨by linarith, hr.le⟩)
      linarith
    simp only [evaluateNegotiation]
    rw [if_neg h1, if_neg (by linarith : ¬((o - r) / r ≤ 1/10)),
      if_pos ⟨hle, hn3⟩]
  · exact ⟨by norm_num [evaluateNegotiation],
      ⟨1100, by norm_num [evaluateNegotiation, min_self], by norm_num,
        by norm_num⟩⟩

theorem negotiation_counter_band_witness :
    evaluateNegotiation 1000 1200 1 =
      ⟨NegotiationOutcome.counter,
        some (min ((1000 + 1200) / 2) (1000 * (11/10)))⟩ :=
  negotiation_counter_band.1 1000 1200 1 (by norm_num) (by norm_num)
    (by norm_num) (by norm_num) (by norm_num) (by norm_num)

/-- C7: whenever the policy counters on a valid round, the counter rate
lies strictly between the reference rate and the carrier offer — the
1.10 clamp cannot break the open interval because offers within 10% of
the reference are accepted rather than countered. -/
theorem counter_rate_strictly_between (r o : ℚ) (n : ℕ)
    (hr : 0 < r) (ho : 0 < o)
    (hcnt : (evaluateNegotiation r o n).outcome = NegotiationOutcome.counter) :
    ∃ cr, (evaluateNegotiation r o n).counter_rate = some cr ∧
      r < cr ∧ cr < o := by
  by_cases h1 : o ≤ r
  · have heq : evaluateNegotiation r o n = ⟨NegotiationOutcome.accept, none⟩ := by
      simp only [evaluateNegotiation]
      rw [if_pos h1]
    rw [heq] at hcnt
    simp at hcnt
  by_cases h2 : (o - r) / r ≤ 1/10
  · have heq : evaluateNegotiation r o n = ⟨NegotiationOutcome.accept, none⟩ := by
      simp only [evaluateNegotiation]
      rw [if_neg h1, if_pos h2]
    rw [heq] at hcnt
    simp at hcnt
  by_cases h3 : (o - r) / r ≤ 1/5 ∧ n ≤ 3
  · have heq : evaluateNegotiation r o n =
        ⟨NegotiationOutcome.counter, some (min ((r + o) / 2) (r * (11/10)))⟩ := by
      simp only [evaluateNegotiation]
      rw [if_neg h1, if_neg h2, if_pos h3]
    have hro : r < o := lt_of_not_le h1
    have hclamp : r * (11/10) < o := by
      have := (lt_div_iff₀ hr).mp (lt_of_not_le h2)
      linarith
    rw [heq]
    exact ⟨min ((r + o) / 2) (r * (11/10)), rfl,
      lt_min (by linarith) (by nlinarith),
      lt_of_le_of_lt (min_le_right _ _) hclamp⟩
  · have heq : evaluateNegotiation r o n = ⟨NegotiationOutcome.reject, none⟩ := by
      simp only [evaluateNegotiation]
      rw [if_neg h1, if_neg h2, if_neg h3]
    rw [heq] at hcnt
    simp at hcnt

theorem counter_rate_strictly_between_witness :
    (evaluateNegotiation 1000 1200 1).outcome = NegotiationOutcome.counter ∧
    ∃ cr, (evaluateNegotiation 1000 1200 1).counter_rate = some cr ∧
      (1000 : ℚ) < cr ∧ cr < 1200 :=
  ⟨by norm_num [evaluateNegotiation],
    counter_rate_strictly_between 1000 1200 1 (by norm_num) (by norm_num)
      (by norm_num [evaluateNegotiation])⟩

/-- C8: for every valid round the policy rejects when `delta > 0.20`,
or when the round number exceeds 3 while the offer is still outside the
accept band (`delta > 0.10`); in particular reference 1000, offer 1150,
round 4 is rejected, and no counter is ever produced past round 3. -/
theorem negotiation_reject_rules :
    (∀ (r o : ℚ) (n : ℕ), 0 < r → 0 < o → 1 ≤ n →
        (1/5 < (o - r) / r ∨ (3 < n ∧ 1/10 < (o - r) / r)) →
        (evaluateNegotiation r o n).outcome = NegotiationOutcome.reject) ∧
    (evaluateNegotiation 1000 1150 4).outcome = NegotiationOutcome.reject ∧
    (∀ (r o : ℚ) (n : ℕ), 3 < n →
        (evaluateNegotiation r o n).outcome ≠ NegotiationOutcome.counter) := by
  refine ⟨?_, by norm_num [evaluateNegotiation], ?_⟩
  · intro r o n hr _ _ h
    simp only [evaluateNegotiation]
    split_ifs with h1 h2 h3
    · exfalso
      have hd : (o - r) / r ≤ 0 :=
        div_nonpos_iff.mpr (Or.inr ⟨by linarith, hr.le⟩)
      rcases h with h | ⟨_, h⟩ <;> linarith
    · exfalso
      rcases h with h | ⟨_, h⟩ <;> linarith
    · exfalso
      rcases h with h | ⟨hn, _⟩
      · linarith [h3.1]
      · omega
    · rfl
  · intro r o n hn
    simp only [evaluateNegotiation]
    split_ifs with h1 h2 h3
    · simp
    · simp
    · omega
    · simp

theorem negotiation_reject_rules_witness :
    (evaluateNegotiation 1000 1300 1).outcome = NegotiationOutcome.reject :=
  negotiation_reject_rules.1 1000 1300 1 (by norm_num) (by norm_num)
    (by norm_num) (Or.inl (by norm_num))

/-- Outcome of one logged carrier interaction (§3). -/
inductive CallOutcome where
  | booked
  | lost_price
  | no_loads
  | ineligible
  | other
deriving DecidableEq, Repr

/-- Caller sentiment of one logged interaction (§3). -/
inductive Sentiment where
  | positive
  | neutral
  | negative
deriving DecidableEq, Repr

/-- Modelled from the spec: one call-log record as in §3 of the
specification (the backing `api/metrics/models.py` is not among the
provided source files).  Currency amounts are rationals; the timestamp
is kept as an opaque string since no claim depends on it. -/
structure CallRecord where
  carrier_mc : String
  load_id : Option String
  initial_rate : Option ℚ
  final_rate : Option ℚ
  round_count : ℕ
  outcome : CallOutcome
  sentiment : Sentiment
  call_duration_seconds : ℚ
  notes : Option String
  created_at : String
deriving Repr

/-- Per-sentiment counts of the summary. -/
structure SentimentBreakdown where
  positive : ℕ
  neutral : ℕ
  negative : ℕ
deriving DecidableEq, Repr

/-- Modelled from the spec: the derived KPI record of §3
(`MetricsSummary`), with each ratio defaulting to 0 on an empty log. -/
structure MetricsSummary where
  total_calls : ℕ
  booked_count : ℕ
  booking_rate : ℚ
  average_rounds : ℚ
  sentiment_breakdown : SentimentBreakdown
  total_revenue : ℚ
  revenue_per_call : ℚ
  average_call_duration : ℚ
deriving DecidableEq, Repr

/-- Running accumulators of the single pass of §4.3. -/
structure MetricsAcc where
  total : ℕ
  booked : ℕ
  revenue : ℚ
  rounds : ℕ
  duration : ℚ
  pos : ℕ
  neu : ℕ
  neg : ℕ

/-- One accumulation step of §4.3: count the record, its sentiment and
its rounds and duration, and restrict the booked count and revenue sum
to records with outcome `booked` (a booked record without a final rate
contributes 0 revenue). -/
def stepRecord (a : MetricsAcc) (r : CallRecord) : MetricsAcc where
  total := a.total + 1
  booked := if r.outcome = CallOutcome.booked then a.booked + 1 else a.booked
  revenue :=
    if r.outcome = CallOutcome.booked then a.revenue + r.final_rate.getD 0
    else a.revenue
  rounds := a.rounds + r.round_count
  duration := a.duration + r.call_duration_seconds
  pos := if r.sentiment = Sentiment.positive then a.pos + 1 else a.pos
  neu := if r.sentiment = Sentiment.neutral then a.neu + 1 else a.neu
  neg := if r.sentiment = Sentiment.negative then a.neg + 1 else a.neg

/-- The derived ratios of §4.3, computed once at the end and guarded
against division by zero. -/
def finalize (a : MetricsAcc) : MetricsSummary where
  total_calls := a.total
  booked_count := a.booked
  booking_rate := if a.total = 0 then 0 else (a.booked : ℚ) / (a.total : ℚ)
  average_rounds := if a.total = 0 then 0 else (a.rounds : ℚ) / (a.total : ℚ)
  sentiment_breakdown := ⟨a.pos, a.neu, a.neg⟩
  total_revenue := a.revenue
  revenue_per_call := if a.total = 0 then 0 else a.revenue / (a.total : ℚ)
  average_call_duration :=
    if a.total = 0 then 0 else a.duration / (a.total : ℚ)

/-- Modelled from the spec: `summarize` of §4.3 (the backing
`api/metrics/service.py` is not among the provided source files) — a
pure single pass over the ordered record sequence accumulating the
running counters, finalized by the guarded divisions. -/
def summarize (records : List CallRecord) : MetricsSummary :=
  finalize (records.foldl stepRecord ⟨0, 0, 0, 0, 0, 0, 0, 0⟩)

/-- The booked sub-sequence of a call log. -/
def bookedRecords (records : List CallRecord) : List CallRecord :=
  records.filter (fun r => r.outcome == CallOutcome.booked)

/-- Revenue of one record: its final rate, defaulting to 0. -/
def recordRevenue (r : CallRecord) : ℚ :=
  r.final_rate.getD 0

theorem foldl_step_total (l : List CallRecord) (a : MetricsAcc) :
    (l.foldl stepRecord a).total = a.total + l.length := by
  induction l generalizing a with
  | nil => simp
  | cons r t ih =>
    simp only [List.foldl_cons, List.length_cons, ih, stepRecord]
    omega

theorem foldl_step_booked (l : List CallRecord) (a : MetricsAcc) :
    (l.foldl stepRecord a).booked = a.booked + (bookedRecords l).length := by
  induction l generalizing a with
  | nil => simp [bookedRecords]
  | cons r t ih =>
    by_cases hb : r.outcome = CallOutcome.booked <;>
      simp [List.foldl_cons, ih, bookedRecords, List.filter_cons, hb,
        stepRecord] <;>
      omega

theorem foldl_step_revenue (l : List CallRecord) (a : MetricsAcc) :
    (l.foldl stepRecord a).revenue =
      a.revenue + ((bookedRecords l).map recordRevenue).sum := by
  induction l generalizing a with
  | nil => simp [bookedRecords]
  | cons r t ih =>
    by_cases hb : r.outcome = CallOutcome.booked <;>
      simp [List.foldl_cons, ih, bookedRecords, List.filter_cons, hb,
        stepRecord, recordRevenue] <;>
      ring

/-- C9: the aggregator tolerates the empty call log, returning the
all-zero summary (every count, every sentiment bucket and every guarded
ratio is 0) instead of failing. -/
theorem summarize_empty :
    summarize [] =
      { total_calls := 0
        booked_count := 0
        booking_rate := 0
        average_rounds := 0
        sentiment_breakdown := ⟨0, 0, 0⟩
        total_revenue := 0
        revenue_per_call := 0
        average_call_duration := 0 } := rfl

/-- The three-record log of the aggregation-correctness test property:
one call booked at a final rate of 2000, one lost on price, one booked
at 3000. -/
def exampleRecords : List CallRecord :=
  [{ carrier_mc := "111111"
     load_id := some "L001"
     initial_rate := some 2100
     final_rate := some 2000
     round_count := 2
     outcome := CallOutcome.booked
     sentiment := Sentiment.positive
     call_duration_seconds := 300
     notes := none
     created_at := "2025-01-01T10:00:00Z" },
   { carrier_mc := "222222"
     load_id := none
     initial_rate := some 1800
     final_rate := none
     round_count := 3
     outcome := CallOutcome.lost_price
     sentiment := Sentiment.negative
     call_duration_seconds := 200
     notes := none
     created_at := "2025-01-01T11:00:00Z" },
   { carrier_mc := "333333"
     load_id := some "L003"
     initial_rate := some 3200
     final_rate := some 3000
     round_count := 1
     outcome := CallOutcome.booked
     sentiment := Sentiment.neutral
     call_duration_seconds := 250
     notes := some "ok"
     created_at := "2025-01-01T12:00:00Z" }]

/-- C10: on every record sequence the summary counts the calls, counts
and sums the booked records, and derives the zero-guarded ratios
`booked_count / total_calls` and `total_revenue / total_calls`; on the
three-record example log this gives 3 calls, 2 booked, booking rate
2/3 (≈ 0.667), revenue 5000 and revenue per call 5000/3 (≈ 1666.67). -/
theorem summarize_aggregation (records : List CallRecord) :
    (summarize records).total_calls = records.length ∧
    (summarize records).booked_count = (bookedRecords records).length ∧
    (summarize records).total_revenue =
      ((bookedRecords records).map recordRevenue).sum ∧
    (summarize records).booking_rate =
      (if records.length = 0 then 0
       else ((bookedRecords records).length : ℚ) / (records.length : ℚ)) ∧
    (summarize records).revenue_per_call =
      (if records.length = 0 then 0
       else ((bookedRecords records).map recordRevenue).sum /
         (records.length : ℚ)) ∧
    ((summarize exampleRecords).total_calls = 3 ∧
      (summarize exampleRecords).booked_count = 2 ∧
      (summarize exampleRecords).booking_rate = 2/3 ∧
      (summarize exampleRecords).total_revenue = 5000 ∧
      (summarize exampleRecords).revenue_per_call = 5000/3) := by
  refine ⟨?_, ?_, ?_, ?_, ?_, ?_⟩
  · simp [summarize, finalize, foldl_step_total]
  · simp [summarize, finalize, foldl_step_booked]
  · simp [summarize, finalize, foldl_step_revenue]
  · simp only [summarize, finalize]
    rw [foldl_step_total, foldl_step_booked]
    by_cases h : records.length = 0 <;> simp [h]
  · simp only [summarize, finalize]
    rw [foldl_step_total, foldl_step_revenue]
    by_cases h : records.length = 0 <;> simp [h]
  · norm_num [summarize, exampleRecords, finalize, stepRecord,
      show CallOutcome.lost_price ≠ CallOutcome.booked from by decide]

end CarrierSales
